import Mathlib

/-!
Verification of the generator core of the activerecord repository
(src/internal/pkg/generator/generator.go): the backend dispatcher
`Generate`, the template-rendering wrapper `GenerateByTmpl`, the meta
path `GenerateMeta`, and the diagnostic line mapper `ErrorLine`.

Strings are modelled at the character level (Go byte positions become
character positions; the two agree on ASCII text).  Go runtime panics
(negative slice index, index past the end, negative repeat count) are
modelled as `none`.  Collaborators whose code lives outside the
generator file (the octopus backend generator, the template engine,
the imports normalizer, `getTmplErrorLine`) are passed in as explicit
function parameters, so theorems quantify over their behaviour.
-/

set_option autoImplicit false

namespace ActiveRecord

/-- strings.Split(s, "\n") over the character list: Go semantics, the
result is never empty and the separators are dropped. -/
def splitNlAux : List Char → List (List Char)
  | [] => [[]]
  | c :: cs =>
    if c = '\n' then [] :: splitNlAux cs
    else
      match splitNlAux cs with
      | [] => [[c]]
      | l :: ls => (c :: l) :: ls

def goSplitNl (s : String) : List String :=
  (splitNlAux s.data).map fun l => String.mk l

/-- strings.SplitAfter(s, "\n"): like Split but every separator stays
attached to the end of the piece it terminates. -/
def splitAfterNlAux : List Char → List (List Char)
  | [] => [[]]
  | c :: cs =>
    if c = '\n' then ['\n'] :: splitAfterNlAux cs
    else
      match splitAfterNlAux cs with
      | [] => [[c]]
      | l :: ls => (c :: l) :: ls

def goSplitAfterNl (s : String) : List String :=
  (splitAfterNlAux s.data).map fun l => String.mk l

/-- strings.Trim(s, "\t"): drop tab characters from both ends. -/
def trimTab (s : String) : String :=
  String.mk (((s.data.dropWhile fun c => c = '\t').reverse.dropWhile fun c => c = '\t').reverse)

def digitsToNat (ds : List Char) : Nat :=
  ds.foldl (fun a c => 10 * a + (c.toNat - 48)) 0

def maxInt64 : Nat := 9223372036854775807

/-- strconv.Atoi restricted to the digit runs captured by the locator
pattern: it fails only when the run is empty or the value overflows a
64-bit int. -/
def goAtoi (ds : List Char) : Option Int :=
  if ds = [] then none
  else if digitsToNat ds ≤ maxInt64 then some (Int.ofNat (digitsToNat ds)) else none

/-- The anchored locator pattern of ErrorLine (a digit run, a colon, a
digit run, a colon, at the very start of the message); returns the two
captured digit runs. -/
def parseLocator (s : String) : Option (List Char × List Char) :=
  match s.data.takeWhile Char.isDigit, s.data.dropWhile Char.isDigit with
  | d1@(_ :: _), ':' :: r2 =>
    match r2.takeWhile Char.isDigit, r2.dropWhile Char.isDigit with
    | d2@(_ :: _), ':' :: _ => some (d1, d2)
    | _, _ => none
  | _, _ => none

/-- errors.Wrap: a message layered over the preserved original error. -/
structure Wrapped where
  msg : String
  cause : String
deriving DecidableEq

/-- Go slice indexing with an int index: a negative index or an index
past the end is a runtime panic, modelled as `none`. -/
def goListGet (l : List String) (i : Int) : Option String :=
  if i < 0 then none else l.get? i.toNat

def repeatChars : Nat → List Char → List Char
  | 0, _ => []
  | n + 1, cs => cs ++ repeatChars n cs

/-- strings.Repeat(s, n): panics (none) on a negative count. -/
def goRepeat (s : String) (n : Int) : Option String :=
  if n < 0 then none else some (String.mk (repeatChars n.toNat s.data))

/-- ErrorLine from generator.go: translate a leading line:col locator in
an error message into a caret-annotated snippet over genData, always
wrapping the original error.  `none` models a runtime panic. -/
def ErrorLine (errIn : String) (genData : String) : Option Wrapped :=
  match parseLocator errIn with
  | none => some ⟨"cant parse error message", errIn⟩
  | some (d1, d2) =>
    match goAtoi d1 with
    | none => some ⟨"can\x27t unparse error line num", errIn⟩
    | some lineNum =>
      let lines := goSplitNl genData
      if (lines.length : Int) < lineNum then
        some ⟨"line num " ++ toString lineNum ++ " not found (total " ++
              toString lines.length ++ ")", errIn⟩
      else
        match goListGet lines (lineNum - 1) with
        | none => none
        | some line =>
          match goAtoi d2 with
          | none => some ⟨"can\x27t unparse error byte num in line: " ++ line, errIn⟩
          | some byteNum =>
            if (line.length : Int) < byteNum then
              some ⟨"byte num not found in line: " ++ line, errIn⟩
            else
              match goListGet lines (lineNum - 2) with
              | none => none
              | some prevLine =>
                match goRepeat " " (byteNum - 1) with
                | none => none
                | some pad =>
                  match goListGet lines lineNum with
                  | none => none
                  | some nextLine =>
                    some ⟨"\n" ++ trimTab prevLine ++ "\n" ++ trimTab line ++ "\n" ++
                          pad ++ "^^^^^" ++ "\n" ++ trimTab nextLine, errIn⟩

/-- Modelled from the spec: the schema-layer namespace declaration
(package ds, not under src/), holding the internal package name and the
public display name of a record package. -/
structure NamespaceDeclaration where
  PackageName : String
  PublicName : String
deriving DecidableEq

/-- Modelled from the spec: the schema-layer RecordPackage (package ds,
not under src/): a namespace, the declared backend identifier list, and
the remaining schema contents (fields, indexes, serializers, mutators,
triggers, imports, flags, server) held opaquely in `Rest`. -/
structure RecordPackage (α : Type) where
  Namespace : NamespaceDeclaration
  Backends : List String
  Rest : α

/-- PkgData from generator.go, with the schema fields that Generate
treats opaquely collapsed into `Rest`; LinkedObject is the
cross-package link map as an association list. -/
structure PkgData (α : Type) where
  ARPkg : String
  ARPkgTitle : String
  LinkedObject : List (String × RecordPackage α)
  Rest : α
  AppInfo : String

/-- NewPkgData from generator.go: project a record package (plus the
appInfo string) into render parameters; LinkedObject stays empty. -/
def NewPkgData {α : Type} (appInfo : String) (cl : RecordPackage α) : PkgData α :=
  ⟨cl.Namespace.PackageName, cl.Namespace.PublicName, [], cl.Rest, appInfo⟩

/-- The assignment params.LinkedObject = linkObject performed by
Generate after calling NewPkgData. -/
def withLinked {α : Type} (p : PkgData α) (l : List (String × RecordPackage α)) :
    PkgData α :=
  ⟨p.ARPkg, p.ARPkgTitle, l, p.Rest, p.AppInfo⟩

/-- GenerateFile from generator.go: one generated artifact. -/
structure GenerateFile where
  Data : String
  Name : String
  Dir : String
  Backend : String
deriving DecidableEq

/-- Modelled from the spec: arerror.ErrGeneratorPhases (package arerror,
not under src/): the parse/execute-phase diagnostic with backend name,
phase tag, extracted template line context, and the original error. -/
structure ErrGeneratorPhases where
  Name : String
  Backend : String
  Phase : String
  TmplLines : String
  Err : String
deriving DecidableEq

/-- The err.Name = cl.Namespace.PublicName assignment in Generate. -/
def setPhasesName (e : ErrGeneratorPhases) (n : String) : ErrGeneratorPhases :=
  ⟨n, e.Backend, e.Phase, e.TmplLines, e.Err⟩

/-- Modelled from the spec: the cause carried by arerror.ErrGeneratorFile
(package arerror, not under src/): either one of the two backend
sentinel errors, or a line-mapped formatter error, or a phases error
from the rendering engine. -/
inductive FileErrCause where
  | backendNotImplemented
  | backendUnknown
  | lineCtx (w : Wrapped)
  | phases (e : ErrGeneratorPhases)
deriving DecidableEq

/-- Modelled from the spec: arerror.ErrGeneratorFile (package arerror,
not under src/): the per-file diagnostic with package display name,
backend tag, file name (empty when unset) and cause. -/
structure ErrGeneratorFile where
  Name : String
  Backend : String
  Filename : String
  Err : FileErrCause
deriving DecidableEq

/-- The error returned by Generate: one of the two Go error types. -/
inductive GenError where
  | phases (e : ErrGeneratorPhases)
  | file (e : ErrGeneratorFile)
deriving DecidableEq

/-- The package display name carried by a Generate error. -/
def GenError.errName : GenError → String
  | .phases e => e.Name
  | .file e => e.Name

/-- The disclaimer banner from generator.go, verbatim (the braces of the
template directive written as hex escapes). -/
def disclaimer : String :=
  "// Code generated by argen. DO NOT EDIT.\n" ++
  "// This code was generated from a template.\n" ++
  "//\n" ++
  "// Manual changes to this file may cause unexpected behavior in your application.\n" ++
  "// Manual changes to this file will be overwritten if the code is regenerated.\n" ++
  "//\n" ++
  "// Generate info: \x7b\x7b .AppInfo \x7d\x7d\n"

/-- Modelled from the spec: the disclaimer banner as the rendering
engine emits it, with the AppInfo directive replaced by the appInfo
value supplied for the run. -/
def disclaimerRendered (appInfo : String) : String :=
  "// Code generated by argen. DO NOT EDIT.\n" ++
  "// This code was generated from a template.\n" ++
  "//\n" ++
  "// Manual changes to this file may cause unexpected behavior in your application.\n" ++
  "// Manual changes to this file will be overwritten if the code is regenerated.\n" ++
  "//\n" ++
  "// Generate info: " ++ appInfo ++ "\n"

/-- The tmplLines computation of GenerateByTmpl: getTmplErrorLine (whose
code is outside src/, abstracted as `getTmpl`) applied to the
SplitAfter lines of the banner-prefixed template; when it fails, its
own error text is used instead. -/
def tmplLinesFor (getTmpl : List String → String → Except String String)
    (full errMsg : String) : String :=
  match getTmpl (goSplitAfterNl full) errMsg with
  | .ok s => s
  | .error e => e

/-- GenerateByTmpl from generator.go over an abstract template engine:
`parseT` is template.Parse on the banner-prefixed body (some = parse
error message), `execT` is Execute (ok = the bytes written to dstFile).
Returns the buffer contents and the optional phases error. -/
def GenerateByTmpl {α : Type} (parseT : String → Option String)
    (execT : String → α → Except String String)
    (getTmpl : List String → String → Except String String)
    (params : α) (name tmpl : String) :
    String × Option ErrGeneratorPhases :=
  match parseT (disclaimer ++ tmpl) with
  | some errMsg =>
    ("", some ⟨"", name, "parse", tmplLinesFor getTmpl (disclaimer ++ tmpl) errMsg, errMsg⟩)
  | none =>
    match execT (disclaimer ++ tmpl) params with
    | .error errMsg =>
      ("", some ⟨"", name, "execute", tmplLinesFor getTmpl (disclaimer ++ tmpl) errMsg, errMsg⟩)
    | .ok out => (out, none)

/-- The inner loop of Generate over one backend's name-to-buffer map
(as an ordered association list, standing for one map iteration order):
each buffer goes through the imports normalizer; a failure is wrapped
with ErrorLine over the raw buffer; `none` models an ErrorLine panic. -/
def processUnits {α : Type} (importsProcess : String → Except String String)
    (cl : RecordPackage α) (backend : String) :
    List (String × String) → List GenerateFile →
    Option (Except ErrGeneratorFile (List GenerateFile))
  | [], acc => some (.ok acc)
  | (name, data) :: restU, acc =>
    match importsProcess data with
    | .error msg =>
      match ErrorLine msg data with
      | none => none
      | some w =>
        some (.error ⟨cl.Namespace.PublicName, backend, name ++ ".go", .lineCtx w⟩)
    | .ok d =>
      processUnits importsProcess cl backend restU
        (acc ++ [⟨d, name ++ ".go", cl.Namespace.PackageName, backend⟩])

/-- The backend loop of Generate, instrumented with a log of the
backends for which the octopus generator (the rendering engine) was
invoked.  `genOctopus` abstracts GenerateOctopus (octopus backend code,
not under src/); `importsProcess` abstracts imports.Process.  The first
component is the invocation log, the second the Go return pair
(artifact list, optional error); `none` models a panic. -/
def generateLoopAux {α : Type}
    (genOctopus : PkgData α → Except ErrGeneratorPhases (List (String × String)))
    (importsProcess : String → Except String String)
    (appInfo : String) (cl : RecordPackage α)
    (linkObject : List (String × RecordPackage α)) :
    List String → List GenerateFile → List String →
    List String × Option (List GenerateFile × Option GenError)
  | [], acc, log => (log, some (acc, none))
  | backend :: rest, acc, log =>
    if backend = "tarantool15" ∨ backend = "octopus" then
      match genOctopus (withLinked (NewPkgData appInfo cl) linkObject) with
      | .error e =>
        (log ++ [backend],
         some ([], some (.phases (setPhasesName e cl.Namespace.PublicName))))
      | .ok generated =>
        match processUnits importsProcess cl backend generated acc with
        | none => (log ++ [backend], none)
        | some (.error e) => (log ++ [backend], some ([], some (.file e)))
        | some (.ok acc2) =>
          generateLoopAux genOctopus importsProcess appInfo cl linkObject rest acc2
            (log ++ [backend])
    else if backend = "tarantool16" ∨ backend = "tarantool2" then
      (log, some ([], some (.file ⟨cl.Namespace.PublicName, backend, "", .backendNotImplemented⟩)))
    else if backend = "postgres" then
      (log, some ([], some (.file ⟨cl.Namespace.PublicName, backend, "", .backendNotImplemented⟩)))
    else
      (log, some ([], some (.file ⟨cl.Namespace.PublicName, backend, "", .backendUnknown⟩)))

/-- Generate from generator.go: dispatch every declared backend of the
record package, returning the Go pair (artifact list, optional error);
`none` models a panic inside ErrorLine. -/
def Generate {α : Type}
    (genOctopus : PkgData α → Except ErrGeneratorPhases (List (String × String)))
    (importsProcess : String → Except String String)
    (appInfo : String) (cl : RecordPackage α)
    (linkObject : List (String × RecordPackage α)) :
    Option (List GenerateFile × Option GenError) :=
  (generateLoopAux genOctopus importsProcess appInfo cl linkObject cl.Backends [] []).2

/-- MetaData from generator.go: parameters of the meta path. -/
structure MetaData (α : Type) where
  Namespaces : List (RecordPackage α)
  AppInfo : String

/-- GenerateMeta from generator.go: render the embedded meta template
(whose body, outside src/, is the `metaTmpl` parameter) into
repository.go and normalize it; a normalizer failure is wrapped with
ErrorLine over the raw rendered buffer. -/
def GenerateMeta {α : Type} (parseT : String → Option String)
    (execT : String → MetaData α → Except String String)
    (getTmpl : List String → String → Except String String)
    (importsProcess : String → Except String String)
    (metaTmpl : String) (params : MetaData α) :
    Option (List GenerateFile × Option ErrGeneratorFile) :=
  match GenerateByTmpl parseT execT getTmpl params "meta" metaTmpl with
  | (_, some e) =>
    some ([], some ⟨"repository.go", "meta", "repository.go", .phases e⟩)
  | (genData, none) =>
    match importsProcess genData with
    | .error msg =>
      match ErrorLine msg genData with
      | none => none
      | some w => some ([], some ⟨"repository.go", "meta", "repository.go", .lineCtx w⟩)
    | .ok d => some ([⟨d, "repository.go", "", "meta"⟩], none)

lemma goListGet_neg (l : List String) (i : Int) (h : i < 0) : goListGet l i = none :=
  if_pos h

lemma goListGet_coe (l : List String) (n : Nat) : goListGet l (n : Int) = l.get? n := by
  unfold goListGet
  rw [if_neg (by omega)]
  simp

lemma goListGet_coe_sub (l : List String) (k m : Nat) (h : m ≤ k) :
    goListGet l ((k : Int) - (m : Int)) = l.get? (k - m) := by
  have hcast : (k : Int) - (m : Int) = ((k - m : Nat) : Int) := by omega
  rw [hcast, goListGet_coe]

lemma repeatChars_replicate (n : Nat) (c : Char) :
    repeatChars n [c] = List.replicate n c := by
  induction n with
  | zero => rfl
  | succ m ih => simp [repeatChars, ih, List.replicate]

lemma goRepeat_spaces (c : Nat) (h : 1 ≤ c) :
    goRepeat " " ((c : Int) - 1) = some (String.mk (List.replicate (c - 1) ' ')) := by
  unfold goRepeat
  rw [if_neg (by omega)]
  have hcast : ((c : Int) - 1).toNat = c - 1 := by omega
  rw [hcast]
  have hdata : (" " : String).data = [' '] := rfl
  rw [hdata, repeatChars_replicate]

/-- Claim C2: for an error message bearing a locator k:c: and a source
text whose newline-split has line k strictly inside (2 ≤ k ≤ N-1) and
column c within line k (1 ≤ c ≤ its length), ErrorLine returns an error
wrapping the original whose message contains, in order, line k-1
tab-trimmed, line k tab-trimmed, a caret line of exactly c-1 spaces
followed by the fixed five-character caret marker, and the line at
0-based array index k (the documented off-by-one). -/
theorem errorLine_roundtrip (errMsg genData : String) (d1 d2 : List Char) (k c : Nat)
    (prev fault next : String)
    (hparse : parseLocator errMsg = some (d1, d2))
    (hk : goAtoi d1 = some (k : Int))
    (hc : goAtoi d2 = some (c : Int))
    (hk2 : 2 ≤ k)
    (hkN : k + 1 ≤ (goSplitNl genData).length)
    (hprev : (goSplitNl genData).get? (k - 2) = some prev)
    (hfault : (goSplitNl genData).get? (k - 1) = some fault)
    (hnext : (goSplitNl genData).get? k = some next)
    (hc1 : 1 ≤ c)
    (hclen : c ≤ fault.length) :
    ErrorLine errMsg genData =
      some ⟨"\n" ++ trimTab prev ++ "\n" ++ trimTab fault ++ "\n" ++
            String.mk (List.replicate (c - 1) ' ') ++ "^^^^^" ++ "\n" ++ trimTab next,
            errMsg⟩ := by
  have h1 : goListGet (goSplitNl genData) ((k : Int) - 1) = some fault := by
    have hs := goListGet_coe_sub (goSplitNl genData) k 1 (by omega)
    simp only [Int.natCast_one] at hs
    rw [hs, hfault]
  have h2 : goListGet (goSplitNl genData) ((k : Int) - 2) = some prev := by
    have hs := goListGet_coe_sub (goSplitNl genData) k 2 (by omega)
    push_cast at hs
    rw [hs, hprev]
  have h3 : goListGet (goSplitNl genData) (k : Int) = some next := by
    rw [goListGet_coe, hnext]
  have hlt1 : ¬ (((goSplitNl genData).length : Int) < (k : Int)) := by omega
  have hlt2 : ¬ ((fault.length : Int) < (c : Int)) := by omega
  simp only [ErrorLine, hparse, hk, hc, h1, h2, h3, if_neg hlt1, if_neg hlt2,
    goRepeat_spaces c hc1]

/-- Claim C2 witness at a concrete input: text of four lines, locator
3:2, so the snippet shows line 2, line 3, a one-space caret line and
the line at array index 3. -/
theorem errorLine_roundtrip_witness :
    ErrorLine "3:2: boom" "aaa\nbbb\nccc\nddd" =
      some ⟨"\nbbb\nccc\n ^^^^^\nddd", "3:2: boom"⟩ := by
  have h := errorLine_roundtrip "3:2: boom" "aaa\nbbb\nccc\nddd" ['3'] ['2'] 3 2
    "bbb" "ccc" "ddd" (by decide) (by decide) (by decide) (by decide) (by decide)
    (by decide) (by decide) (by decide) (by decide) (by decide)
  exact h.trans (by decide)

/-- Claim C3: ErrorLine is not total on locator inputs that pass its
bounds checks: with fault line k in range and column c within the fault
line, evaluation faults (none, a runtime panic) whenever k = 1 (the
preceding-line lookup hits array index -1), k = N (the trailing-line
lookup hits index N, one past the end), or c = 0 (the caret padding
calls string repeat with count -1). -/
theorem errorLine_panics (errMsg genData : String) (d1 d2 : List Char) (k c : Nat)
    (fault : String)
    (hparse : parseLocator errMsg = some (d1, d2))
    (hk : goAtoi d1 = some (k : Int))
    (hc : goAtoi d2 = some (c : Int))
    (hk1 : 1 ≤ k)
    (hkN : k ≤ (goSplitNl genData).length)
    (hfault : (goSplitNl genData).get? (k - 1) = some fault)
    (hclen : c ≤ fault.length)
    (hcase : k = 1 ∨ k = (goSplitNl genData).length ∨ c = 0) :
    ErrorLine errMsg genData = none := by
  have h1 : goListGet (goSplitNl genData) ((k : Int) - 1) = some fault := by
    have hs := goListGet_coe_sub (goSplitNl genData) k 1 (by omega)
    simp only [Int.natCast_one] at hs
    rw [hs, hfault]
  have hlt1 : ¬ (((goSplitNl genData).length : Int) < (k : Int)) := by omega
  have hlt2 : ¬ ((fault.length : Int) < (c : Int)) := by omega
  by_cases hone : k = 1
  · have h2 : goListGet (goSplitNl genData) ((k : Int) - 2) = none := by
      apply goListGet_neg
      omega
    simp only [ErrorLine, hparse, hk, hc, h1, h2, if_neg hlt1, if_neg hlt2]
  · have hk2 : 2 ≤ k := by omega
    have hlt : k - 2 < (goSplitNl genData).length := by omega
    have h2 : goListGet (goSplitNl genData) ((k : Int) - 2) =
        some ((goSplitNl genData).get ⟨k - 2, hlt⟩) := by
      have hs := goListGet_coe_sub (goSplitNl genData) k 2 (by omega)
      push_cast at hs
      rw [hs, List.get?_eq_get hlt]
    by_cases hzero : c = 0
    · have h4 : goRepeat " " ((c : Int) - 1) = none := by
        apply if_pos
        omega
      simp only [ErrorLine, hparse, hk, hc, h1, h2, h4, if_neg hlt1, if_neg hlt2]
    · have hcl : 1 ≤ c := by omega
      have hend : k = (goSplitNl genData).length := by
        rcases hcase with h | h | h
        · exact absurd h hone
        · exact h
        · exact absurd h hzero
      have h3 : goListGet (goSplitNl genData) (k : Int) = none := by
        rw [goListGet_coe, List.get?_eq_none]
        omega
      simp only [ErrorLine, hparse, hk, hc, h1, h2, h3, if_neg hlt1, if_neg hlt2,
        goRepeat_spaces c hcl]

/-- Claim C3 witness at concrete inputs: the first-line case and the
last-line case hit out-of-range indices and the zero-column case hits a
negative repeat count; ErrorLine faults on each. -/
theorem errorLine_panics_witness :
    ErrorLine "1:1: boom" "aaa\nbbb" = none ∧
    ErrorLine "2:1: boom" "aaa\nbbb" = none ∧
    ErrorLine "2:0: boom" "aaa\nbbb\nccc" = none := by
  refine ⟨?_, ?_, ?_⟩
  · exact errorLine_panics "1:1: boom" "aaa\nbbb" ['1'] ['1'] 1 1 "aaa" (by decide)
      (by decide) (by decide) (by decide) (by decide) (by decide) (by decide)
      (Or.inl rfl)
  · exact errorLine_panics "2:1: boom" "aaa\nbbb" ['2'] ['1'] 2 1 "bbb" (by decide)
      (by decide) (by decide) (by decide) (by decide) (by decide) (by decide)
      (Or.inr (Or.inl (by decide)))
  · exact errorLine_panics "2:0: boom" "aaa\nbbb\nccc" ['2'] ['0'] 2 0 "bbb" (by decide)
      (by decide) (by decide) (by decide) (by decide) (by decide) (by decide)
      (Or.inr (Or.inr rfl))

/-- Claim C5: ErrorLine never discards the original error.  Whatever it
returns wraps the original message as the cause; with no parseable
locator it returns the fixed fallback message; with a locator line
number beyond the line count it reports both the requested number and
the total; with a column beyond the fault line's length it reports the
byte-not-found message naming that line — each wrapping the original. -/
theorem errorLine_always_wraps (errMsg genData : String) :
    (∀ w : Wrapped, ErrorLine errMsg genData = some w → w.cause = errMsg) ∧
    (parseLocator errMsg = none →
      ErrorLine errMsg genData = some ⟨"cant parse error message", errMsg⟩) ∧
    (∀ (d1 d2 : List Char) (k : Int), parseLocator errMsg = some (d1, d2) →
      goAtoi d1 = some k → ((goSplitNl genData).length : Int) < k →
      ErrorLine errMsg genData =
        some ⟨"line num " ++ toString k ++ " not found (total " ++
              toString (goSplitNl genData).length ++ ")", errMsg⟩) ∧
    (∀ (d1 d2 : List Char) (k c : Int) (fault : String),
      parseLocator errMsg = some (d1, d2) →
      goAtoi d1 = some k → goAtoi d2 = some c →
      ¬ (((goSplitNl genData).length : Int) < k) →
      goListGet (goSplitNl genData) (k - 1) = some fault →
      (fault.length : Int) < c →
      ErrorLine errMsg genData =
        some ⟨"byte num not found in line: " ++ fault, errMsg⟩) := by
  refine ⟨?_, ?_, ?_, ?_⟩
  · intro w hw
    simp only [ErrorLine] at hw
    split at hw
    · cases hw; rfl
    · split at hw
      · cases hw; rfl
      · split at hw
        · cases hw; rfl
        · split at hw
          · exact Option.noConfusion hw
          · split at hw
            · cases hw; rfl
            · split at hw
              · cases hw; rfl
              · split at hw
                · exact Option.noConfusion hw
                · split at hw
                  · exact Option.noConfusion hw
                  · split at hw
                    · exact Option.noConfusion hw
                    · cases hw; rfl
  · intro h
    simp only [ErrorLine, h]
  · intro d1 d2 k hp hk hlt
    simp only [ErrorLine, hp, hk, if_pos hlt]
  · intro d1 d2 k c fault hp hk hc hnlt hget hlt
    simp only [ErrorLine, hp, hk, hc, hget, if_neg hnlt, if_pos hlt]

/-- Claim C5 witness at concrete inputs: one instance of each stated
branch — locatorless fallback, line-out-of-range, column-out-of-range —
each wrapping the original message. -/
theorem errorLine_always_wraps_witness :
    ErrorLine "boom" "aaa" = some ⟨"cant parse error message", "boom"⟩ ∧
    ErrorLine "9:1: boom" "aaa" =
      some ⟨"line num 9 not found (total 1)", "9:1: boom"⟩ ∧
    ErrorLine "1:7: boom" "aaa\nbbb" =
      some ⟨"byte num not found in line: aaa", "1:7: boom"⟩ := by
  refine ⟨?_, ?_, ?_⟩
  · exact (errorLine_always_wraps "boom" "aaa").2.1 (by decide)
  · have h := (errorLine_always_wraps "9:1: boom" "aaa").2.2.1 ['9'] ['1'] 9
      (by decide) (by decide) (by decide)
    exact h.trans (by decide)
  · exact (errorLine_always_wraps "1:7: boom" "aaa\nbbb").2.2.2 ['1'] ['7'] 1 7 "aaa"
      (by decide) (by decide) (by decide) (by decide) (by decide) (by decide)

lemma processUnits_error_name {α : Type} (imp : String → Except String String)
    (cl : RecordPackage α) (b : String) :
    ∀ (units : List (String × String)) (acc : List GenerateFile) (e : ErrGeneratorFile),
      processUnits imp cl b units acc = some (.error e) →
      e.Name = cl.Namespace.PublicName := by
  intro units
  induction units with
  | nil =>
    intro acc e h
    simp [processUnits] at h
  | cons u rest ih =>
    intro acc e h
    obtain ⟨n, d⟩ := u
    simp only [processUnits] at h
    split at h
    · split at h
      · exact Option.noConfusion h
      · cases h
        rfl
    · exact ih _ _ h

lemma generateLoopAux_error {α : Type}
    (g : PkgData α → Except ErrGeneratorPhases (List (String × String)))
    (imp : String → Except String String) (a : String) (cl : RecordPackage α)
    (link : List (String × RecordPackage α)) :
    ∀ (bs : List String) (acc : List GenerateFile) (log log2 : List String)
      (files : List GenerateFile) (e : GenError),
      generateLoopAux g imp a cl link bs acc log = (log2, some (files, some e)) →
      files = [] ∧ e.errName = cl.Namespace.PublicName := by
  intro bs
  induction bs with
  | nil =>
    intro acc log log2 files e h
    simp [generateLoopAux] at h
  | cons b rest ih =>
    intro acc log log2 files e h
    simp only [generateLoopAux] at h
    split at h
    · split at h
      · cases h
        exact ⟨rfl, rfl⟩
      · rename_i gen heq
        split at h
        · cases h
        · rename_i e3 heq2
          cases h
          exact ⟨rfl, processUnits_error_name imp cl b gen acc e3 heq2⟩
        · exact ih _ _ _ _ _ h
    · split at h
      · cases h
        exact ⟨rfl, rfl⟩
      · split at h
        · cases h
          exact ⟨rfl, rfl⟩
        · cases h
          exact ⟨rfl, rfl⟩

/-- Claim C6: whenever Generate fails, it returns a nil artifact list —
never a partial list of artifacts already produced — and the returned
diagnostic carries the record package's public display name. -/
theorem generate_error_no_partial {α : Type}
    (g : PkgData α → Except ErrGeneratorPhases (List (String × String)))
    (imp : String → Except String String) (a : String) (cl : RecordPackage α)
    (link : List (String × RecordPackage α))
    (files : List GenerateFile) (e : GenError)
    (h : Generate g imp a cl link = some (files, some e)) :
    files = [] ∧ e.errName = cl.Namespace.PublicName := by
  unfold Generate at h
  exact generateLoopAux_error g imp a cl link cl.Backends [] []
    (generateLoopAux g imp a cl link cl.Backends [] []).1 files e (by rw [← h])

/-- Claim C6 witness: a concrete failing dispatch (unknown backend after
a successfully rendered octopus backend) returns the empty artifact
list and a diagnostic named with the public display name. -/
theorem generate_error_no_partial_witness :
    @Generate Unit (fun _ => .ok [("x", "d")]) (fun s => .ok s) "a"
        ⟨⟨"p", "Pub"⟩, ["octopus", "bad"], ()⟩ [] =
      some ([], some (.file ⟨"Pub", "bad", "", .backendUnknown⟩)) ∧
    ([] : List GenerateFile) = [] ∧
    (GenError.file ⟨"Pub", "bad", "", .backendUnknown⟩).errName = "Pub" :=
  ⟨by decide,
   generate_error_no_partial (fun _ => .ok [("x", "d")]) (fun s => .ok s) "a"
     ⟨⟨"p", "Pub"⟩, ["octopus", "bad"], ()⟩ [] [] _ (by decide)⟩

/-- Claim C8: a record package with an empty declared backend list
yields the empty artifact list and no error, whatever the rest of the
package holds. -/
theorem generate_empty_backends {α : Type}
    (g : PkgData α → Except ErrGeneratorPhases (List (String × String)))
    (imp : String → Except String String) (a : String) (cl : RecordPackage α)
    (link : List (String × RecordPackage α))
    (h : cl.Backends = []) :
    Generate g imp a cl link = some ([], none) := by
  unfold Generate
  rw [h]
  rfl

/-- Claim C8 witness: a concrete record package with no backends. -/
theorem generate_empty_backends_witness :
    @Generate Unit (fun _ => .ok []) (fun s => .ok s) "a" ⟨⟨"p", "Pub"⟩, [], ()⟩ [] =
      some ([], none) :=
  generate_empty_backends _ _ _ _ _ rfl

lemma processUnits_all_ok {α : Type} (imp : String → Except String String)
    (cl : RecordPackage α) (b : String) :
    ∀ (units : List (String × String)) (acc : List GenerateFile),
      (∀ p ∈ units, ∃ d, imp p.2 = .ok d) →
      ∃ acc2, processUnits imp cl b units acc = some (.ok acc2) := by
  intro units
  induction units with
  | nil =>
    intro acc _
    exact ⟨acc, rfl⟩
  | cons u rest ih =>
    intro acc hok
    obtain ⟨n, d⟩ := u
    obtain ⟨d2, hd2⟩ := hok (n, d) (List.mem_cons_self _ _)
    simp only [processUnits, hd2]
    exact ih _ (fun p hp => hok p (List.mem_cons_of_mem _ hp))

lemma generateLoopAux_goodRun {α : Type}
    (g : PkgData α → Except ErrGeneratorPhases (List (String × String)))
    (imp : String → Except String String) (a : String) (cl : RecordPackage α)
    (link : List (String × RecordPackage α))
    (units : List (String × String))
    (hg : g (withLinked (NewPkgData a cl) link) = .ok units)
    (hok : ∀ p ∈ units, ∃ d, imp p.2 = .ok d) :
    ∀ (pre rest : List String) (acc : List GenerateFile) (log : List String),
      (∀ b ∈ pre, b = "octopus" ∨ b = "tarantool15") →
      ∃ acc2, generateLoopAux g imp a cl link (pre ++ rest) acc log =
              generateLoopAux g imp a cl link rest acc2 (log ++ pre) := by
  intro pre
  induction pre with
  | nil =>
    intro rest acc log _
    exact ⟨acc, by simp⟩
  | cons b pre ih =>
    intro rest acc log hpre
    have hb : b = "octopus" ∨ b = "tarantool15" := hpre b (List.mem_cons_self _ _)
    have hcond : b = "tarantool15" ∨ b = "octopus" := hb.symm
    obtain ⟨acc2, hacc2⟩ := processUnits_all_ok imp cl b units acc hok
    obtain ⟨acc3, h3⟩ := ih rest acc2 (log ++ [b])
      (fun x hx => hpre x (List.mem_cons_of_mem _ hx))
    refine ⟨acc3, ?_⟩
    simp only [List.cons_append, generateLoopAux, if_pos hcond, hg, hacc2, List.append_eq]
    rw [h3]
    congr 1
    simp

/-- Claim C1 counterexample: the backend identifier "postgres" is not
one of the four identifiers named by the claim, yet Generate fails with
the not-implemented condition, not the unknown-backend condition. -/
theorem generate_postgres_counterexample :
    @Generate Unit (fun _ => .ok []) (fun s => .ok s) "app"
        ⟨⟨"pkg", "Pub"⟩, ["postgres"], ()⟩ [] =
      some ([], some (.file ⟨"Pub", "postgres", "", .backendNotImplemented⟩)) ∧
    FileErrCause.backendNotImplemented ≠ FileErrCause.backendUnknown :=
  ⟨by decide, by decide⟩

/-- Claim C1 as amended: the known vocabulary has five identifiers —
octopus and tarantool15 implemented, tarantool16, tarantool2 and
postgres recognized but unimplemented.  For a backend list whose
entries before an identifier outside that vocabulary are all
implemented aliases that render and format successfully, Generate fails
with the unknown-backend condition carrying the package's display name
and that identifier, and returns no artifacts. -/
theorem generate_unknown_backend {α : Type}
    (g : PkgData α → Except ErrGeneratorPhases (List (String × String)))
    (imp : String → Except String String) (a : String) (cl : RecordPackage α)
    (link : List (String × RecordPackage α))
    (pre rest : List String) (bad : String)
    (hb : cl.Backends = pre ++ bad :: rest)
    (hpre : ∀ b ∈ pre, b = "octopus" ∨ b = "tarantool15")
    (units : List (String × String))
    (hg : g (withLinked (NewPkgData a cl) link) = .ok units)
    (hok : ∀ p ∈ units, ∃ d, imp p.2 = .ok d)
    (h1 : bad ≠ "octopus") (h2 : bad ≠ "tarantool15") (h3 : bad ≠ "tarantool16")
    (h4 : bad ≠ "tarantool2") (h5 : bad ≠ "postgres") :
    Generate g imp a cl link =
      some ([], some (.file ⟨cl.Namespace.PublicName, bad, "", .backendUnknown⟩)) := by
  unfold Generate
  rw [hb]
  obtain ⟨acc2, heq⟩ :=
    generateLoopAux_goodRun g imp a cl link units hg hok pre (bad :: rest) [] [] hpre
  rw [heq]
  have hc1 : ¬ (bad = "tarantool15" ∨ bad = "octopus") := by tauto
  have hc2 : ¬ (bad = "tarantool16" ∨ bad = "tarantool2") := by tauto
  simp only [generateLoopAux, if_neg hc1, if_neg hc2, if_neg h5]

/-- Claim C1 amended witness: after a successful octopus backend, the
identifier "weird" fails as unknown, with no artifacts. -/
theorem generate_unknown_backend_witness :
    @Generate Unit (fun _ => .ok [("x", "d")]) (fun s => .ok s) "a"
        ⟨⟨"p", "Pub"⟩, ["octopus", "weird"], ()⟩ [] =
      some ([], some (.file ⟨"Pub", "weird", "", .backendUnknown⟩)) :=
  generate_unknown_backend (fun _ => .ok [("x", "d")]) (fun s => .ok s) "a"
    ⟨⟨"p", "Pub"⟩, ["octopus", "weird"], ()⟩ [] ["octopus"] [] "weird" rfl
    (by decide) [("x", "d")] rfl (fun p _ => ⟨p.2, rfl⟩)
    (by decide) (by decide) (by decide) (by decide) (by decide)

/-- Claim C4 counterexample: a backend list containing "tarantool16"
after an unknown identifier fails with the unknown-backend condition
carrying the unknown identifier, not with the not-implemented
condition carrying "tarantool16". -/
theorem generate_not_implemented_counterexample :
    @Generate Unit (fun _ => .ok []) (fun s => .ok s) "a"
        ⟨⟨"p", "Pub"⟩, ["zzz", "tarantool16"], ()⟩ [] =
      some ([], some (.file ⟨"Pub", "zzz", "", .backendUnknown⟩)) ∧
    (some ([], some (.file ⟨"Pub", "zzz", "", .backendUnknown⟩)) :
        Option (List GenerateFile × Option GenError)) ≠
      some ([], some (.file ⟨"Pub", "tarantool16", "", .backendNotImplemented⟩)) :=
  ⟨by decide, by decide⟩

/-- Claim C4 as amended: for a backend list containing tarantool16 or
tarantool2 where every entry before it is an implemented alias that
renders and formats successfully, Generate fails with the
not-implemented condition carrying the package display name and that
identifier, returns no artifacts, and the rendering engine is never
invoked for that identifier. -/
theorem generate_not_implemented {α : Type}
    (g : PkgData α → Except ErrGeneratorPhases (List (String × String)))
    (imp : String → Except String String) (a : String) (cl : RecordPackage α)
    (link : List (String × RecordPackage α))
    (pre rest : List String) (bad : String)
    (hb : cl.Backends = pre ++ bad :: rest)
    (hpre : ∀ b ∈ pre, b = "octopus" ∨ b = "tarantool15")
    (units : List (String × String))
    (hg : g (withLinked (NewPkgData a cl) link) = .ok units)
    (hok : ∀ p ∈ units, ∃ d, imp p.2 = .ok d)
    (hbad : bad = "tarantool16" ∨ bad = "tarantool2") :
    Generate g imp a cl link =
      some ([], some (.file ⟨cl.Namespace.PublicName, bad, "", .backendNotImplemented⟩)) ∧
    bad ∉ (generateLoopAux g imp a cl link cl.Backends [] []).1 := by
  obtain ⟨acc2, heq⟩ :=
    generateLoopAux_goodRun g imp a cl link units hg hok pre (bad :: rest) [] [] hpre
  have hc1 : ¬ (bad = "tarantool15" ∨ bad = "octopus") := by
    rcases hbad with h | h <;> subst h <;> decide
  have hstep : generateLoopAux g imp a cl link (bad :: rest) acc2 ([] ++ pre) =
      ([] ++ pre,
       some ([], some (.file ⟨cl.Namespace.PublicName, bad, "", .backendNotImplemented⟩))) := by
    simp only [generateLoopAux, if_neg hc1, if_pos hbad]
  have hfull : generateLoopAux g imp a cl link cl.Backends [] [] =
      ([] ++ pre,
       some ([], some (.file ⟨cl.Namespace.PublicName, bad, "", .backendNotImplemented⟩))) := by
    rw [hb, heq, hstep]
  constructor
  · unfold Generate
    rw [hfull]
  · rw [hfull]
    intro hmem
    simp only [List.nil_append] at hmem
    rcases hpre bad hmem with h | h <;> rcases hbad with h2 | h2 <;>
      rw [h2] at h <;> exact absurd h (by decide)

/-- Claim C4 amended witness: after a successful octopus backend,
"tarantool16" fails as not implemented, with no artifacts and no
rendering invocation for it. -/
theorem generate_not_implemented_witness :
    @Generate Unit (fun _ => .ok [("x", "d")]) (fun s => .ok s) "a"
        ⟨⟨"p", "Pub"⟩, ["octopus", "tarantool16"], ()⟩ [] =
      some ([], some (.file ⟨"Pub", "tarantool16", "", .backendNotImplemented⟩)) ∧
    "tarantool16" ∉
      (@generateLoopAux Unit (fun _ => .ok [("x", "d")]) (fun s => .ok s) "a"
        ⟨⟨"p", "Pub"⟩, ["octopus", "tarantool16"], ()⟩ [] ["octopus", "tarantool16"] [] []).1 :=
  generate_not_implemented (fun _ => .ok [("x", "d")]) (fun s => .ok s) "a"
    ⟨⟨"p", "Pub"⟩, ["octopus", "tarantool16"], ()⟩ [] ["octopus"] [] "tarantool16" rfl
    (by decide) [("x", "d")] rfl (fun p _ => ⟨p.2, rfl⟩) (Or.inl rfl)

/-- Claim C7: a record package with backend list octopus whose single
output unit renders with the banner at its head and passes the
normalizer unchanged yields exactly one artifact tagged octopus, named
by the output key plus the fixed .go suffix, placed in the package's
internal package directory, with content starting with the rendered
disclaimer banner carrying the supplied appInfo string. -/
theorem generate_octopus_single {α : Type}
    (g : PkgData α → Except ErrGeneratorPhases (List (String × String)))
    (imp : String → Except String String) (a : String) (cl : RecordPackage α)
    (link : List (String × RecordPackage α)) (key content : String)
    (hb : cl.Backends = ["octopus"])
    (hg : g (withLinked (NewPkgData a cl) link) = .ok [(key, content)])
    (hcontent : ∃ r, content = disclaimerRendered a ++ r)
    (hfmt : imp content = .ok content) :
    Generate g imp a cl link =
      some ([⟨content, key ++ ".go", cl.Namespace.PackageName, "octopus"⟩], none) ∧
    ∃ r, content = disclaimerRendered a ++ r := by
  refine ⟨?_, hcontent⟩
  have hcond : ("octopus" : String) = "tarantool15" ∨ ("octopus" : String) = "octopus" :=
    Or.inr rfl
  unfold Generate
  rw [hb]
  simp only [generateLoopAux, processUnits, if_pos hcond, hg, hfmt, List.nil_append]
  simp

/-- Claim C7 witness: a concrete octopus package whose rendered unit is
the banner followed by a package clause. -/
theorem generate_octopus_single_witness :
    @Generate Unit (fun _ => .ok [("octopus", disclaimerRendered "myapp" ++ "package p\n")])
        (fun s => .ok s) "myapp" ⟨⟨"p", "Pub"⟩, ["octopus"], ()⟩ [] =
      some ([⟨disclaimerRendered "myapp" ++ "package p\n", "octopus" ++ ".go", "p", "octopus"⟩],
            none) ∧
    ∃ r, disclaimerRendered "myapp" ++ "package p\n" = disclaimerRendered "myapp" ++ r :=
  generate_octopus_single
    (fun _ => .ok [("octopus", disclaimerRendered "myapp" ++ "package p\n")])
    (fun s => .ok s) "myapp" ⟨⟨"p", "Pub"⟩, ["octopus"], ()⟩ []
    "octopus" (disclaimerRendered "myapp" ++ "package p\n") rfl rfl
    ⟨"package p\n", rfl⟩ rfl

/-- Claim C9: GenerateByTmpl produces a parse-phase diagnostic exactly
when parsing the banner-prefixed template fails and an execute-phase
diagnostic exactly when evaluating the parsed template fails; both
diagnostics carry the original error and a line context computed from
the SplitAfter lines of the banner-prefixed template text, and on
success there is no error. -/
theorem generateByTmpl_phases {α : Type} (parseT : String → Option String)
    (execT : String → α → Except String String)
    (getTmpl : List String → String → Except String String)
    (params : α) (name tmpl : String) :
    (∀ m, parseT (disclaimer ++ tmpl) = some m →
      GenerateByTmpl parseT execT getTmpl params name tmpl =
        ("", some ⟨"", name, "parse", tmplLinesFor getTmpl (disclaimer ++ tmpl) m, m⟩)) ∧
    (∀ m, parseT (disclaimer ++ tmpl) = none →
      execT (disclaimer ++ tmpl) params = .error m →
      GenerateByTmpl parseT execT getTmpl params name tmpl =
        ("", some ⟨"", name, "execute", tmplLinesFor getTmpl (disclaimer ++ tmpl) m, m⟩)) ∧
    (∀ out, parseT (disclaimer ++ tmpl) = none →
      execT (disclaimer ++ tmpl) params = .ok out →
      GenerateByTmpl parseT execT getTmpl params name tmpl = (out, none)) := by
  refine ⟨?_, ?_, ?_⟩
  · intro m hm
    simp only [GenerateByTmpl, hm]
  · intro m hp hm
    simp only [GenerateByTmpl, hp, hm]
  · intro out hp hm
    simp only [GenerateByTmpl, hp, hm]

/-- Claim C9 witness: a concretely failing parse oracle yields the
parse-phase diagnostic with the banner-offset line context. -/
theorem generateByTmpl_phases_witness :
    @GenerateByTmpl Unit (fun _ => some "boom") (fun _ _ => .ok "out")
        (fun _ e => .ok ("L:" ++ e)) () "octopus" "T" =
      ("", some ⟨"", "octopus", "parse",
                 tmplLinesFor (fun _ e => .ok ("L:" ++ e)) (disclaimer ++ "T") "boom",
                 "boom"⟩) :=
  (generateByTmpl_phases (fun _ => some "boom") (fun _ _ => .ok "out")
    (fun _ e => .ok ("L:" ++ e)) () "octopus" "T").1 "boom" rfl

/-- Claim C10: when the imports normalizer rejects a rendered buffer —
in per-backend Generate and in GenerateMeta alike — the diagnostic
carries the ErrorLine enrichment computed against the pre-normalization
raw rendered buffer, not the template text. -/
theorem lineMapper_raw_buffer_context {α β : Type}
    (g : PkgData α → Except ErrGeneratorPhases (List (String × String)))
    (imp : String → Except String String) (a : String) (cl : RecordPackage α)
    (link : List (String × RecordPackage α))
    (parseT : String → Option String)
    (execT : String → MetaData β → Except String String)
    (getTmpl : List String → String → Except String String)
    (metaTmpl : String) (params : MetaData β) :
    (∀ (backend key data msg : String) (w : Wrapped),
      cl.Backends = [backend] →
      backend = "tarantool15" ∨ backend = "octopus" →
      g (withLinked (NewPkgData a cl) link) = .ok [(key, data)] →
      imp data = .error msg →
      ErrorLine msg data = some w →
      Generate g imp a cl link =
        some ([], some (.file ⟨cl.Namespace.PublicName, backend, key ++ ".go", .lineCtx w⟩))) ∧
    (∀ (genData msg : String) (w : Wrapped),
      parseT (disclaimer ++ metaTmpl) = none →
      execT (disclaimer ++ metaTmpl) params = .ok genData →
      imp genData = .error msg →
      ErrorLine msg genData = some w →
      GenerateMeta parseT execT getTmpl imp metaTmpl params =
        some ([], some ⟨"repository.go", "meta", "repository.go", .lineCtx w⟩)) := by
  constructor
  · intro backend key data msg w hback hcond hg himp hline
    unfold Generate
    rw [hback]
    simp only [generateLoopAux, processUnits, if_pos hcond, hg, himp, hline]
  · intro genData msg w hp hexec himp hline
    simp only [GenerateMeta, GenerateByTmpl, hp, hexec, himp, hline]

/-- Claim C10 witness: a normalizer error with locator 2:1 over a
three-line raw buffer is enriched against that buffer on both paths. -/
theorem lineMapper_raw_buffer_context_witness :
    @Generate Unit (fun _ => .ok [("k", "aaa\nbbb\nccc")]) (fun _ => .error "2:1: bad")
        "a" ⟨⟨"p", "Pub"⟩, ["octopus"], ()⟩ [] =
      some ([], some (.file ⟨"Pub", "octopus", "k" ++ ".go",
        .lineCtx ⟨"\naaa\nbbb\n^^^^^\nccc", "2:1: bad"⟩⟩)) ∧
    @GenerateMeta Unit (fun _ => none) (fun _ _ => .ok "aaa\nbbb\nccc")
        (fun _ e => .ok e) (fun _ => .error "2:1: bad") "T" ⟨[], "a"⟩ =
      some ([], some ⟨"repository.go", "meta", "repository.go",
        .lineCtx ⟨"\naaa\nbbb\n^^^^^\nccc", "2:1: bad"⟩⟩) :=
  ⟨(lineMapper_raw_buffer_context (fun _ => .ok [("k", "aaa\nbbb\nccc")])
      (fun _ => .error "2:1: bad") "a" ⟨⟨"p", "Pub"⟩, ["octopus"], ()⟩ []
      (fun _ => none) (fun _ _ => .ok "aaa\nbbb\nccc") (fun _ e => .ok e) "T"
      (⟨[], "a"⟩ : MetaData Unit)).1 "octopus" "k" "aaa\nbbb\nccc" "2:1: bad"
      ⟨"\naaa\nbbb\n^^^^^\nccc", "2:1: bad"⟩ rfl (Or.inr rfl) rfl rfl (by decide),
   (lineMapper_raw_buffer_context (fun _ => .ok [("k", "aaa\nbbb\nccc")])
      (fun _ => .error "2:1: bad") "a" ⟨⟨"p", "Pub"⟩, ["octopus"], ()⟩ []
      (fun _ => none) (fun _ _ => .ok "aaa\nbbb\nccc") (fun _ e => .ok e) "T"
      (⟨[], "a"⟩ : MetaData Unit)).2 "aaa\nbbb\nccc" "2:1: bad"
      ⟨"\naaa\nbbb\n^^^^^\nccc", "2:1: bad"⟩ rfl rfl rfl (by decide)⟩

end ActiveRecord
